import Mathlib

/-!
Verification of the FFI result type declared in
src/ffi/diplomat/c/include/diplomat_result_box_ICU4XFixedDecimalFormatter_ICU4XError.h
and of the construction/ownership contract it instantiates.

The header declares (lines 14-20):

  typedef struct diplomat_result_box_ICU4XFixedDecimalFormatter_ICU4XError \x7b
      union \x7b
          ICU4XFixedDecimalFormatter* ok;
          ICU4XError err;
      \x7d;
      bool is_ok;
  \x7d diplomat_result_box_ICU4XFixedDecimalFormatter_ICU4XError;

`ICU4XFixedDecimalFormatter` is an opaque (forward-declared) struct, so across the
boundary a value of the `ok` member is only an address.  `ICU4XError` (defined in the
included ICU4XError.h, which is not among these sources) is a closed C enumeration,
i.e. a fixed-width integer tag.  The constructor that produces values of this struct
and the paired destructor live elsewhere in the repository; where they are needed they
are modelled from the spec, as marked on each such definition.
-/

namespace ICU4X

/-- An opaque handle: the address of a heap-allocated `ICU4XFixedDecimalFormatter`.
The struct is forward-declared only, so a handle carries identity (an address) and
nothing else. -/
abbrev FormatterPtr := Nat

/-- Modelled from the spec: the external Error Enumeration `ICU4XError` (its defining
header ICU4XError.h is not among these sources) is a closed set of small fixed-width
integer tags; a value is modelled by its integer tag. -/
abbrev ICU4XError := Nat

/-- The active member of the anonymous C union inside the result struct: which of the
two overlapping members was most recently stored (`unwritten` when neither has been).
C gives the union a single storage location; this tag records its active member, whose
read is the only defined one. -/
inductive UnionMember
  | okMem
  | errMem
  | unwritten
deriving DecidableEq

/-- Shallow embedding of `diplomat_result_box_ICU4XFixedDecimalFormatter_ICU4XError`:
the anonymous union is one shared storage location (`storage`) that both members `ok`
and `err` overlay, together with its active-member tag, and the `bool is_ok`
discriminant. -/
structure DiplomatResult where
  storage : Nat
  active : UnionMember
  is_ok : Bool
deriving DecidableEq

/-- Reading the union member `ok`: reinterprets the shared storage as a pointer. -/
def DiplomatResult.okVal (r : DiplomatResult) : FormatterPtr := r.storage

/-- Reading the union member `err`: reinterprets the shared storage as an error tag. -/
def DiplomatResult.errVal (r : DiplomatResult) : ICU4XError := r.storage

/-- Storing into the union member `ok`: C union assignment overwrites the one shared
storage location and makes `ok` the active member. -/
def DiplomatResult.setOk (r : DiplomatResult) (p : FormatterPtr) : DiplomatResult :=
  { r with storage := p, active := UnionMember.okMem }

/-- Storing into the union member `err`: C union assignment overwrites the one shared
storage location and makes `err` the active member. -/
def DiplomatResult.setErr (r : DiplomatResult) (e : ICU4XError) : DiplomatResult :=
  { r with storage := e, active := UnionMember.errMem }

/-- The `ok` member is the valid (active) union member of `r`. -/
def DiplomatResult.okValid (r : DiplomatResult) : Prop :=
  r.active = UnionMember.okMem

/-- The `err` member is the valid (active) union member of `r`. -/
def DiplomatResult.errValid (r : DiplomatResult) : Prop :=
  r.active = UnionMember.errMem

instance (r : DiplomatResult) : Decidable r.okValid :=
  inferInstanceAs (Decidable (r.active = UnionMember.okMem))

instance (r : DiplomatResult) : Decidable r.errValid :=
  inferInstanceAs (Decidable (r.active = UnionMember.errMem))

/-- A platform/build for layout purposes: the pointer width in bytes is the
ABI-relevant datum; `buildId` stands for everything else that may vary between
repeated builds on the same word size and must not affect the layout. -/
structure Platform where
  ptrBytes : Nat
  buildId : Nat
deriving DecidableEq

/-- `n` rounded up to the next multiple of the alignment `a`. -/
def alignUp (n a : Nat) : Nat := ((n + a - 1) / a) * a

/-- Size in bytes of the `int`-backed C enum `ICU4XError`. -/
def enumBytes : Nat := 4

/-- Size in bytes of C `bool`. -/
def boolBytesC : Nat := 1

/-- Byte layout of the result struct. -/
structure Layout where
  okOffset : Nat
  errOffset : Nat
  isOkOffset : Nat
  boolBytes : Nat
  size : Nat
deriving DecidableEq

/-- The layout of `diplomat_result_box_ICU4XFixedDecimalFormatter_ICU4XError` on a
platform, by the C layout rules: the anonymous union comes first, its members both at
offset 0, its size and alignment those of the widest member (the pointer, or the enum
on a narrower word); `is_ok` follows the union; tail padding rounds the struct size up
to the struct alignment. -/
def resultLayout (p : Platform) : Layout :=
  let u := max p.ptrBytes enumBytes
  { okOffset := 0
    errOffset := 0
    isOkOffset := u
    boolBytes := boolBytesC
    size := alignUp (u + boolBytesC) u }

/-- The boundary's allocation state: the set of live (outstanding) opaque handles. -/
abbrev AllocState := Finset Nat

/-- A fresh address for a new allocation: strictly above every live handle. -/
def freshHandle (st : AllocState) : Nat := st.sup id + 1

theorem freshHandle_not_mem (st : AllocState) : freshHandle st ∉ st := by
  intro hmem
  have h2 : id (freshHandle st) ≤ st.sup id := Finset.le_sup hmem
  simp only [freshHandle, id_eq] at h2
  omega

/-- Modelled from the spec: the generated constructor (`construct()`, spec §4.1) whose
body is not among these sources — only its result type is.  The outcome of the wrapped
constructor (success, or a fault carrying an `ICU4XError`) is a parameter.  On success
it allocates one fresh Opaque Handle, stores it in the `ok` member and sets `is_ok`;
on failure it stores the one error code in the `err` member, clears `is_ok`, and
retains no allocation.  The call is synchronous and atomic: it returns the Result by
value together with the allocation state after the call. -/
def construct (outcome : Except ICU4XError Unit) (st : AllocState) :
    DiplomatResult × AllocState :=
  match outcome with
  | Except.ok _ =>
      (⟨freshHandle st, UnionMember.okMem, true⟩, insert (freshHandle st) st)
  | Except.error e => (⟨e, UnionMember.errMem, false⟩, st)

/-- Modelled from the spec: the paired Release Operation (spec §4.2, §6), external to
this header: it deallocates the one handle it is given. -/
def release (h : Nat) (st : AllocState) : AllocState := st.erase h

/-- Whether the wrapped constructor's outcome is a success. -/
def outcomeIsOk : Except ICU4XError Unit → Bool
  | Except.ok _ => true
  | Except.error _ => false

/-- The discriminant states of the spec's state machine (spec §4.3). -/
inductive RState
  | uninit
  | success
  | failure
deriving DecidableEq

/-- The discriminant state a caller observes on a Result value. -/
def observedState (r : DiplomatResult) : RState :=
  if r.is_ok then RState.success else RState.failure

/-- Modelled from the spec: the lifecycle of one Result value (spec §4.3).  From the
transient uninitialized state, the single write performed by `construct` moves the
value to the state its discriminant shows; a Result handed to the caller is never
mutated, so no step leaves `success` or `failure`. -/
def lifecycleStep (outcome : Except ICU4XError Unit) (st : AllocState) :
    RState → Option RState
  | RState.uninit => some (observedState (construct outcome st).1)
  | RState.success => none
  | RState.failure => none

/-- Modelled from the spec: a batch of concurrent `construct()` callers (spec §5).
Each call is atomic (synchronous call/return, no suspension points), so a concurrent
execution is an interleaving — some sequential order — of the atomic calls; `runAll`
executes one such order against the shared allocator and collects the Result each
caller receives. -/
def runAll : List (Except ICU4XError Unit) → AllocState →
    List DiplomatResult × AllocState
  | [], st => ([], st)
  | o :: os, st =>
      ((construct o st).1 :: (runAll os (construct o st).2).1,
        (runAll os (construct o st).2).2)

/-- The handles received by the successful callers of a batch, in order. -/
def okHandles (rs : List DiplomatResult) : List Nat :=
  (rs.filter (fun r => r.is_ok)).map DiplomatResult.okVal

theorem okHandles_cons (r : DiplomatResult) (rs : List DiplomatResult) :
    okHandles (r :: rs) =
      if r.is_ok then r.okVal :: okHandles rs else okHandles rs := by
  by_cases h : r.is_ok <;> simp [okHandles, h]

theorem runAll_handles_fresh (os : List (Except ICU4XError Unit)) (st : AllocState) :
    (okHandles (runAll os st).1).Nodup ∧
      ∀ x ∈ okHandles (runAll os st).1, x ∉ st := by
  induction os generalizing st with
  | nil => simp [runAll, okHandles]
  | cons o os ih =>
      cases o with
      | ok u =>
          have hfresh := freshHandle_not_mem st
          obtain ⟨ihn, ihm⟩ := ih (insert (freshHandle st) st)
          simp only [runAll, construct, okHandles_cons] at *
          simp only [if_pos rfl, DiplomatResult.okVal] at *
          refine ⟨List.nodup_cons.mpr ⟨?_, ihn⟩, ?_⟩
          · intro hmem
            exact (ihm _ hmem) (Finset.mem_insert_self _ _)
          · intro x hx
            rcases List.mem_cons.mp hx with hx | hx
            · simpa [hx] using hfresh
            · intro hxs
              exact (ihm x hx) (Finset.mem_insert_of_mem hxs)
      | error e =>
          obtain ⟨ihn, ihm⟩ := ih st
          simp only [runAll, construct, okHandles_cons] at *
          simpa using ⟨ihn, ihm⟩

/-- C1: every Result produced by `construct` has exactly one valid union member —
either the handle member `ok` is valid and the error member `err` is not, or the other
way round — and the valid member is the one the boolean discriminant `is_ok`
indicates. -/
theorem construct_discriminant_exclusivity
    (outcome : Except ICU4XError Unit) (st : AllocState) :
    ((construct outcome st).1.okValid ∧ ¬ (construct outcome st).1.errValid
        ∨ (construct outcome st).1.errValid ∧ ¬ (construct outcome st).1.okValid) ∧
    ((construct outcome st).1.is_ok = true ↔ (construct outcome st).1.okValid) ∧
    ((construct outcome st).1.is_ok = false ↔ (construct outcome st).1.errValid) := by
  cases outcome <;>
    simp [construct, DiplomatResult.okValid, DiplomatResult.errValid]

/-- C2: every failure of the wrapped constructor is converted at the boundary into
exactly the one Error Code it carried, stored in the union's `err` member, with the
discriminant set to failure; `construct` is a total function into Result values, so the
encoded Result is the only fault-propagation mechanism and no failure is dropped. -/
theorem construct_failure_encodes_error (e : ICU4XError) (st : AllocState) :
    (construct (Except.error e) st).1.is_ok = false ∧
    (construct (Except.error e) st).1.errValid ∧
    (construct (Except.error e) st).1.errVal = e := by
  simp [construct, DiplomatResult.errValid, DiplomatResult.errVal]

/-- C3: a failing construction retains no allocation: the allocation state is exactly
what it was before the call, repeating failing constructions any number of times leaves
it unchanged, and after a failure starting from no allocations zero handles are
outstanding. -/
theorem construct_failure_no_leak (e : ICU4XError) (st : AllocState) (n : Nat) :
    (construct (Except.error e) st).2 = st ∧
    (fun s => (construct (Except.error e) s).2)^[n] st = st ∧
    ((construct (Except.error e) (∅ : AllocState)).2).card = 0 := by
  refine ⟨rfl, ?_, rfl⟩
  exact Function.iterate_fixed rfl n

/-- C4: in the Result `construct` returns, the discriminant is set — it equals the
outcome of the wrapped constructor — exactly one union member is initialized (the
active member is never `unwritten`), and no torn state with both members active is
observable. -/
theorem construct_no_torn_state (outcome : Except ICU4XError Unit) (st : AllocState) :
    (construct outcome st).1.is_ok = outcomeIsOk outcome ∧
    (construct outcome st).1.active ≠ UnionMember.unwritten ∧
    ¬ ((construct outcome st).1.okValid ∧ (construct outcome st).1.errValid) := by
  cases outcome <;>
    simp [construct, outcomeIsOk, DiplomatResult.okValid, DiplomatResult.errValid]

/-- C5: a successful construction allocates exactly one fresh handle and transfers it
to the caller: the handle was not live before the call, is live after it, the live
count grows by exactly one; releasing it once restores the prior allocation state, after
which the handle is no longer valid; starting from no allocations exactly one live
handle exists after success. -/
theorem construct_success_ownership (st : AllocState) :
    (construct (Except.ok ()) st).1.okValid ∧
    (construct (Except.ok ()) st).1.okVal ∉ st ∧
    (construct (Except.ok ()) st).1.okVal ∈ (construct (Except.ok ()) st).2 ∧
    (construct (Except.ok ()) st).2.card = st.card + 1 ∧
    release ((construct (Except.ok ()) st).1.okVal) ((construct (Except.ok ()) st).2)
      = st ∧
    (construct (Except.ok ()) st).1.okVal ∉
      release ((construct (Except.ok ()) st).1.okVal)
        ((construct (Except.ok ()) st).2) ∧
    ((construct (Except.ok ()) (∅ : AllocState)).2).card = 1 := by
  have hf := freshHandle_not_mem st
  refine ⟨?_, ?_, ?_, ?_, ?_, ?_, ?_⟩
  · simp [construct, DiplomatResult.okValid]
  · simpa [construct, DiplomatResult.okVal] using hf
  · simp [construct, DiplomatResult.okVal]
  · simp [construct, Finset.card_insert_of_not_mem hf]
  · simp [construct, release, DiplomatResult.okVal, Finset.erase_insert hf]
  · simpa [construct, release, DiplomatResult.okVal, Finset.erase_insert hf] using hf
  · simp [construct]

/-- C6: the Result is a fixed-size, non-garbage-collected aggregate: both union members
sit at offset 0 — the pointer-sized handle member and the fixed-width integer tag —
the boolean discriminant is at least one byte wide and placed after the union, and the
whole layout is a function of the word size alone, hence identical across repeated
builds and across platforms of the same word size. -/
theorem result_layout_stable (p q : Platform) (h : p.ptrBytes = q.ptrBytes) :
    resultLayout p = resultLayout q ∧
    (resultLayout p).okOffset = 0 ∧
    (resultLayout p).errOffset = 0 ∧
    1 ≤ (resultLayout p).boolBytes ∧
    (resultLayout p).isOkOffset = max p.ptrBytes enumBytes ∧
    (resultLayout p).size
      = alignUp (max p.ptrBytes enumBytes + boolBytesC) (max p.ptrBytes enumBytes) := by
  simp [resultLayout, h, boolBytesC]

/-- Witness for C6: two distinct builds on the same 64-bit word size. -/
theorem result_layout_stable_witness :
    resultLayout ⟨8, 0⟩ = resultLayout ⟨8, 1⟩ ∧
    (resultLayout ⟨8, 0⟩).okOffset = 0 ∧
    (resultLayout ⟨8, 0⟩).errOffset = 0 ∧
    1 ≤ (resultLayout ⟨8, 0⟩).boolBytes ∧
    (resultLayout ⟨8, 0⟩).isOkOffset = max 8 enumBytes ∧
    (resultLayout ⟨8, 0⟩).size = alignUp (max 8 enumBytes + boolBytesC) (max 8 enumBytes) :=
  result_layout_stable ⟨8, 0⟩ ⟨8, 1⟩ rfl

/-- C7: a Result value's discriminant state evolves only by a transition out of the
transient uninitialized state, into Success or Failure; both are terminal (no step
leaves them), and the uninitialized state is never observable on a Result `construct`
hands to the caller. -/
theorem result_lifecycle_terminal (outcome : Except ICU4XError Unit) (st : AllocState)
    (s t : RState) (h : lifecycleStep outcome st s = some t) :
    s = RState.uninit ∧
    (t = RState.success ∨ t = RState.failure) ∧
    lifecycleStep outcome st t = none ∧
    observedState (construct outcome st).1 ≠ RState.uninit := by
  cases s with
  | success => simp [lifecycleStep] at h
  | failure => simp [lifecycleStep] at h
  | uninit =>
      simp only [lifecycleStep, Option.some.injEq] at h
      subst h
      refine ⟨rfl, ?_, ?_, ?_⟩
      · cases outcome <;> simp [construct, observedState]
      · cases outcome <;> simp [construct, observedState, lifecycleStep]
      · cases outcome <;> simp [construct, observedState]

/-- Witness for C7: the failing transition at a concrete input. -/
theorem result_lifecycle_terminal_witness :
    RState.uninit = RState.uninit ∧
    (RState.failure = RState.success ∨ RState.failure = RState.failure) ∧
    lifecycleStep (Except.error 3) (∅ : AllocState) RState.failure = none ∧
    observedState (construct (Except.error 3) (∅ : AllocState)).1 ≠ RState.uninit :=
  result_lifecycle_terminal (Except.error 3) ∅ RState.uninit RState.failure rfl

/-- C8: for any batch of callers invoking `construct` — executed in any interleaving
order against the shared allocator — the handles received by the callers whose Result
is Success-tagged are pairwise distinct: no two successful callers alias the same
object. -/
theorem construct_concurrent_no_alias (os : List (Except ICU4XError Unit))
    (st : AllocState) :
    (okHandles (runAll os st).1).Nodup :=
  (runAll_handles_fresh os st).1

/-- C9: `ok` and `err` are members of one anonymous union, so they occupy the same
storage at offset 0 of the Result on every platform; storing a value into either member
overwrites the other (the previously stored value is gone, and the other member stops
being the active one), so for every representable Result at most one member is
meaningfully written — exclusivity is enforced by the layout, not only by
convention. -/
theorem union_shared_storage (plat : Platform) (r : DiplomatResult)
    (p : FormatterPtr) (e : ICU4XError) :
    (resultLayout plat).okOffset = 0 ∧
    (resultLayout plat).errOffset = 0 ∧
    (r.setOk p).storage = p ∧
    (r.setErr e).storage = e ∧
    ((r.setErr e).setOk p).errVal = p ∧
    ¬ ((r.setErr e).setOk p).errValid ∧
    ((r.setErr e).setOk p).okValid ∧
    ¬ ((r.setOk p).setErr e).okValid ∧
    ((r.setOk p).setErr e).errValid ∧
    ¬ (r.okValid ∧ r.errValid) := by
  refine ⟨rfl, rfl, rfl, rfl, rfl, ?_, rfl, ?_, rfl, ?_⟩
  · simp [DiplomatResult.setOk, DiplomatResult.setErr, DiplomatResult.errValid]
  · simp [DiplomatResult.setOk, DiplomatResult.setErr, DiplomatResult.okValid]
  · simp only [DiplomatResult.okValid, DiplomatResult.errValid]
    rintro ⟨h1, h2⟩
    rw [h1] at h2
    simp at h2

/-- C10: the discriminant `is_ok` has C type `bool`, which admits exactly the values
true and false; a Result therefore has no representable third discriminant state, and
every Result a caller can inspect is observed as either Success or Failure, never as
the spec's transient Uninitialized state. -/
theorem is_ok_two_valued (r : DiplomatResult) :
    (r.is_ok = true ∨ r.is_ok = false) ∧
    observedState r ≠ RState.uninit ∧
    (observedState r = RState.success ∨ observedState r = RState.failure) := by
  cases hb : r.is_ok <;> simp [observedState, hb]

end ICU4X
